import Mathlib

/-!
Verification of `visualize.py` (Battleship results visualization script).

The script loads `battleship_results.csv` into a data frame, partitions the
`average_shots` column by the `strategy` column into three samples, renders a
bar chart (mean with population-standard-deviation error bars) and a box plot,
runs three pairwise two-sample t-tests (scipy defaults: equal variance,
two-sided) and prints a header plus one formatted line per pair.

The embedding below translates each line of the script into Lean: data values
are rationals, numpy operations that produce NaN are modelled with `Option`
(`none` = NaN), and scipy t-test results live in a small float-value type
`FVal` with explicit `nan`/`inf` constructors.  The two-sided p-value is the
Student-t survival function, defined as a ratio of integrals of the
unnormalized Student-t density.
-/

namespace Battleship

/-- A row of `battleship_results.csv`: a `strategy` label and the numeric
`average_shots` value. -/
structure Row where
  strategy : String
  average_shots : ℚ
deriving DecidableEq

/-- Source line 14: `strategies = ['Random', 'PDF', 'Hunt and Target']`. -/
def strategies : List String := ["Random", "PDF", "Hunt and Target"]

/-- Pandas boolean series `df['strategy'] == label` (source lines 10-12). -/
def seriesEqMask (df : List Row) (label : String) : List Bool :=
  df.map (fun r => r.strategy == label)

/-- Pandas boolean-mask row selection `df[mask]`: keep the rows whose mask
entry is `true`, in order. -/
def boolIndex (df : List Row) (mask : List Bool) : List Row :=
  (df.zip mask).filterMap (fun rb => if rb.2 then some rb.1 else none)

/-- Column extraction `rows['average_shots'].values`. -/
def colValues (rows : List Row) : List ℚ :=
  rows.map Row.average_shots

/-- Source line 10: `random_results = df[df['strategy'] == 'Random']['average_shots'].values`. -/
def random_results (df : List Row) : List ℚ :=
  colValues (boolIndex df (seriesEqMask df "Random"))

/-- Source line 11: `pdf_results = df[df['strategy'] == 'PDF']['average_shots'].values`. -/
def pdf_results (df : List Row) : List ℚ :=
  colValues (boolIndex df (seriesEqMask df "PDF"))

/-- Source line 12: `hunt_target_results = df[df['strategy'] == 'Hunt and Target']['average_shots'].values`. -/
def hunt_target_results (df : List Row) : List ℚ :=
  colValues (boolIndex df (seriesEqMask df "Hunt and Target"))

/-- Specification-side definition (component 4.2): the ordered subsequence of
`average_shots` values from exactly the rows whose `strategy` equals the
label, in the rows' original order. -/
def specSample (df : List Row) (label : String) : List ℚ :=
  (df.filter (fun r => decide (r.strategy = label))).map Row.average_shots

/-! ### Descriptive statistics (numpy models)

numpy returns NaN for the mean or standard deviation of an empty array; NaN
results are modelled with `Option` (`none` = NaN). -/

/-- Arithmetic mean of a list of rationals (total; junk value `0` on `[]`,
which is only ever used behind a nonemptiness guard). -/
def meanQ (l : List ℚ) : ℚ := l.sum / l.length

/-- Model of `np.mean`: NaN (`none`) on an empty array, otherwise the arithmetic mean. -/
def npMean? (l : List ℚ) : Option ℚ :=
  if l = [] then none else some (meanQ l)

/-- Population variance (`ddof=0`, numpy's default): mean squared deviation
from the mean, divisor `n`. -/
def popVarQ (l : List ℚ) : ℚ :=
  (l.map (fun x => (x - meanQ l) ^ 2)).sum / l.length

/-- Model of `np.std` (default `ddof=0`): NaN (`none`) on an empty array, otherwise the
square root of the population variance. -/
noncomputable def npStd? (l : List ℚ) : Option ℝ :=
  if l = [] then none else some (Real.sqrt (popVarQ l))

/-- Sample variance (`ddof=1`, scipy's t-test internals): divisor `n - 1`
(total; only used behind a `2 ≤ n` guard). -/
def sampleVarQ (l : List ℚ) : ℚ :=
  (l.map (fun x => (x - meanQ l) ^ 2)).sum / ((l.length : ℚ) - 1)

/-- Specification-side definition: the arithmetic mean of the sample, as a
real number. -/
noncomputable def specMeanR (l : List ℚ) : ℝ :=
  (l.map (fun x : ℚ => (x : ℝ))).sum / l.length

/-- Specification-side definition: the population standard deviation — square
root of the mean squared deviation, divisor `n` (not `n - 1`). -/
noncomputable def specPopStdR (l : List ℚ) : ℝ :=
  Real.sqrt ((l.map (fun x : ℚ => ((x : ℝ) - specMeanR l) ^ 2)).sum / l.length)

/-- The sample-corrected standard deviation (divisor `n - 1`), which the
script does NOT use for the error bars. -/
noncomputable def specSampleStdR (l : List ℚ) : ℝ :=
  Real.sqrt ((l.map (fun x : ℚ => ((x : ℝ) - specMeanR l) ^ 2)).sum / ((l.length : ℝ) - 1))

/-! ### Float-valued results of the t-test -/

/-- IEEE-float-like result values produced by `scipy.stats.ttest_ind`:
NaN, positive or negative infinity, or a finite real. -/
inductive FVal where
  | nan : FVal
  | pinf : FVal
  | ninf : FVal
  | val : ℝ → FVal

/-! ### Student t survival function

`scipy.stats.ttest_ind` computes the two-sided p-value as twice the survival
function of the Student t distribution with `df` degrees of freedom at `|t|`.
The survival function is modelled as the ratio of the upper-tail integral of
the unnormalized Student density to its total integral. -/

/-- The unnormalized Student t density with `ν` degrees of freedom. -/
noncomputable def studentWeight (ν x : ℝ) : ℝ :=
  (1 + x ^ 2 / ν) ^ (-((ν + 1) / 2))

/-- Survival function of the Student t distribution with `ν` degrees of
freedom: the normalized upper-tail mass above `t`. -/
noncomputable def studentSF (ν t : ℝ) : ℝ :=
  (∫ x in Set.Ioi t, studentWeight ν x) / ∫ x, studentWeight ν x

/-! ### scipy.stats.ttest_ind -/

/-- Model of `scipy.stats.ttest_ind(a, b, equal_var)`: independent two-sample t-test,
two-sided.  With fewer than two observations in either sample the sample
variance (`ddof=1`) is NaN and the whole result is NaN; with a zero pooled
variance the t-statistic is `0/0 = NaN` (equal means) or `±inf`. -/
noncomputable def ttest_ind (a b : List ℚ) (equal_var : Bool) : FVal × FVal :=
  if a.length < 2 ∨ b.length < 2 then (FVal.nan, FVal.nan)
  else
    let n1 : ℚ := a.length
    let n2 : ℚ := b.length
    let m1 := meanQ a
    let m2 := meanQ b
    if equal_var then
      let df : ℕ := a.length + b.length - 2
      let svar : ℚ := ((n1 - 1) * sampleVarQ a + (n2 - 1) * sampleVarQ b) / (df : ℚ)
      let dsq : ℚ := svar * (1 / n1 + 1 / n2)
      if dsq = 0 then
        if m1 = m2 then (FVal.nan, FVal.nan)
        else if m2 < m1 then (FVal.pinf, FVal.val 0) else (FVal.ninf, FVal.val 0)
      else
        let t : ℝ := ((m1 - m2 : ℚ) : ℝ) / Real.sqrt ((dsq : ℚ) : ℝ)
        (FVal.val t, FVal.val (2 * studentSF (df : ℝ) |t|))
    else
      let vn1 : ℚ := sampleVarQ a / n1
      let vn2 : ℚ := sampleVarQ b / n2
      let dsq : ℚ := vn1 + vn2
      if dsq = 0 then
        if m1 = m2 then (FVal.nan, FVal.nan)
        else if m2 < m1 then (FVal.pinf, FVal.nan) else (FVal.ninf, FVal.nan)
      else
        let dfw : ℚ := dsq ^ 2 / (vn1 ^ 2 / (n1 - 1) + vn2 ^ 2 / (n2 - 1))
        let t : ℝ := ((m1 - m2 : ℚ) : ℝ) / Real.sqrt ((dsq : ℚ) : ℝ)
        (FVal.val t, FVal.val (2 * studentSF ((dfw : ℚ) : ℝ) |t|))

/-- The script's calls `stats.ttest_ind(x, y)` leave `equal_var` at scipy's
default `True` (equal-variance assumption). -/
noncomputable def ttest_ind_default (a b : List ℚ) : FVal × FVal :=
  ttest_ind a b true

/-- Specification-side definition (component 4.4): the textbook independent
two-sample t-test under the equal-variance assumption with a two-sided
alternative.  The pooled variance is the total sum of squared deviations over
`n1 + n2 - 2`, and the p-value is twice the Student upper-tail mass at `|t|`
with `n1 + n2 - 2` degrees of freedom. -/
noncomputable def specTTestEqualVarTwoSided (a b : List ℚ) : FVal × FVal :=
  if a.length < 2 ∨ b.length < 2 then (FVal.nan, FVal.nan)
  else
    let n1 : ℚ := a.length
    let n2 : ℚ := b.length
    let m1 := meanQ a
    let m2 := meanQ b
    let ssdA : ℚ := (a.map (fun x => (x - m1) ^ 2)).sum
    let ssdB : ℚ := (b.map (fun x => (x - m2) ^ 2)).sum
    let pooled : ℚ := (ssdA + ssdB) / (n1 + n2 - 2)
    let dsq : ℚ := pooled * (1 / n1 + 1 / n2)
    if dsq = 0 then
      if m1 = m2 then (FVal.nan, FVal.nan)
      else if m2 < m1 then (FVal.pinf, FVal.val 0) else (FVal.ninf, FVal.val 0)
    else
      let t : ℝ := ((m1 - m2 : ℚ) : ℝ) / Real.sqrt ((dsq : ℚ) : ℝ)
      (FVal.val t, FVal.val (2 * studentSF ((a.length + b.length - 2 : ℕ) : ℝ) |t|))

/-! ### Output formatting

Python's `f"{x:.4f}"` and `f"{x:.4e}"` format specifiers, on the real-number
idealization: round to four decimal (resp. mantissa) digits and print; NaN and
infinities print as `nan` / `inf` / `-inf`. -/

/-- Pad a digit string with leading zeros to the given width. -/
def padLeftZeros (w : ℕ) (s : String) : String :=
  String.mk (List.replicate (w - s.length) '0') ++ s

/-- Python's fixed-point format `{:.4f}`: four digits after the decimal point. -/
noncomputable def fmtFixed4 : FVal → String
  | FVal.nan => "nan"
  | FVal.pinf => "inf"
  | FVal.ninf => "-inf"
  | FVal.val x =>
    let n : ℤ := round (x * 10000)
    let sign := if n < 0 then "-" else ""
    sign ++ toString (n.natAbs / 10000) ++ "." ++ padLeftZeros 4 (toString (n.natAbs % 10000))

/-- Python's scientific format `{:.4e}`: mantissa in `[1, 10)` with four
digits after the decimal point, then `e` and a signed two-digit exponent. -/
noncomputable def fmtSci4 : FVal → String
  | FVal.nan => "nan"
  | FVal.pinf => "inf"
  | FVal.ninf => "-inf"
  | FVal.val x =>
    if x = 0 then "0.0000e+00"
    else
      let sign := if x < 0 then "-" else ""
      let e : ℤ := ⌊Real.logb 10 |x|⌋
      let m : ℤ := round (|x| * (10 : ℝ) ^ (4 - e))
      let me2 : ℤ × ℤ := if 100000 ≤ m then (m / 10, e + 1) else (m, e)
      sign ++ toString (me2.1.natAbs / 10000) ++ "." ++
        padLeftZeros 4 (toString (me2.1.natAbs % 10000)) ++ "e" ++
        (if me2.2 < 0 then "-" else "+") ++ padLeftZeros 2 (toString me2.2.natAbs)

/-- One printed comparison line (source lines 40-42):
`f"A vs B: t={t:.4f}, p={p:.4e}"`. -/
noncomputable def mkTestLine (a b : String) (t p : FVal) : String :=
  a ++ " vs " ++ b ++ ": t=" ++ fmtFixed4 t ++ ", p=" ++ fmtSci4 p

/-- The console output of the script (source lines 35-42): the header and the
three pairwise t-test lines, in the fixed order (Random, PDF),
(Random, Hunt and Target), (PDF, Hunt and Target). -/
noncomputable def consoleOutput (df : List Row) : List String :=
  let rp := ttest_ind_default (random_results df) (pdf_results df)
  let rh := ttest_ind_default (random_results df) (hunt_target_results df)
  let ph := ttest_ind_default (pdf_results df) (hunt_target_results df)
  ["T-test results:",
    mkTestLine "Random" "PDF" rp.1 rp.2,
    mkTestLine "Random" "Hunt and Target" rh.1 rh.2,
    mkTestLine "PDF" "Hunt and Target" ph.1 ph.2]

/-! ### The two chart artifacts -/

/-- The bar chart of source lines 19-23: `figsize`, labels, bar heights,
error bars, capsize, title, y-axis label. -/
structure BarChart where
  figsize : ℚ × ℚ
  labels : List String
  heights : List (Option ℚ)
  yerr : List (Option ℝ)
  capsize : ℚ
  title : String
  ylabel : String

/-- The box plot of source lines 26-31: `figsize`, per-strategy data, labels,
title, y-axis label. -/
structure BoxPlot where
  figsize : ℚ × ℚ
  data : List (List ℚ)
  labels : List String
  title : String
  ylabel : String

/-- Source line 15: `means = [np.mean(random_results), np.mean(pdf_results),
np.mean(hunt_target_results)]`. -/
def means (df : List Row) : List (Option ℚ) :=
  [npMean? (random_results df), npMean? (pdf_results df),
    npMean? (hunt_target_results df)]

/-- Source line 16: `stds = [np.std(random_results), np.std(pdf_results),
np.std(hunt_target_results)]`. -/
noncomputable def stds (df : List Row) : List (Option ℝ) :=
  [npStd? (random_results df), npStd? (pdf_results df),
    npStd? (hunt_target_results df)]

/-- The figure saved to `strategy_comparison.png` (source lines 19-22). -/
noncomputable def strategyComparisonChart (df : List Row) : BarChart :=
  ⟨(10, 6), strategies, means df, stds df, 5,
    "Average Shots to Win by Strategy", "Number of Shots"⟩

/-- The figure saved to `strategy_distribution.png` (source lines 26-30). -/
def strategyDistributionChart (df : List Row) : BoxPlot :=
  ⟨(10, 6), [random_results df, pdf_results df, hunt_target_results df],
    strategies, "Distribution of Shots to Win by Strategy", "Number of Shots"⟩

/-- A saved image file is one of the two figures. -/
inductive Figure where
  | bar : BarChart → Figure
  | box : BoxPlot → Figure

/-! ### Script state and effects -/

/-- State visible to the script after loading: the loaded table, the
filesystem (name to saved figure), and the console transcript. -/
structure ScriptState where
  table : List Row
  files : String → Option Figure
  console : List String

/-- Model of `plt.savefig(name)`: write the figure under `name`, overwriting any
existing file with that name. -/
def saveFig (s : ScriptState) (name : String) (fig : Figure) : ScriptState :=
  ⟨s.table, fun n => if n = name then some fig else s.files n, s.console⟩

/-- Model of `print(line)`: append one line to the console transcript. -/
def printLine (s : ScriptState) (line : String) : ScriptState :=
  ⟨s.table, s.files, s.console ++ [line]⟩

/-- Everything the script does after the CSV is loaded (source lines 9-42):
save the bar chart, save the box plot, print the four console lines. -/
noncomputable def runAfterLoad (s : ScriptState) : ScriptState :=
  let s1 := saveFig s "strategy_comparison.png"
    (Figure.bar (strategyComparisonChart s.table))
  let s2 := saveFig s1 "strategy_distribution.png"
    (Figure.box (strategyDistributionChart s1.table))
  (consoleOutput s2.table).foldl printLine s2

/-- Failures of the loading stage (source line 7 and the column accesses):
a missing input file, a malformed CSV, or a missing expected column.  Each is
an uncaught exception from the underlying libraries. -/
inductive LoadError where
  | fileNotFound : LoadError
  | parseError : LoadError
  | missingColumn : String → LoadError

/-- The whole script: a failed load propagates as an uncaught error; a
successful load runs the rest of the script on the loaded table (starting
from the given filesystem and an empty console). -/
noncomputable def runScript (load : Except LoadError (List Row))
    (fs : String → Option Figure) : Except LoadError ScriptState :=
  load.map (fun df => runAfterLoad ⟨df, fs, []⟩)

/-- Ambient state the script never consults: a clock, an RNG seed, and
environment variables. -/
structure World where
  clock : ℕ
  randomSeed : ℕ
  envVars : String → Option String

/-- A run of the script in an ambient world, given a fixed deterministic CSV
parse function and the raw bytes of `battleship_results.csv`; the console
output is a function of the parsed table alone. -/
noncomputable def runConsoleInWorld (parseCsv : String → List Row)
    (csvBytes : String) (_w : World) : List String :=
  consoleOutput (parseCsv csvBytes)

/-! ### Partitioning lemmas -/

/-- Boolean-mask selection against the equality mask of a data frame is row
filtering by label equality. -/
lemma boolIndex_seriesEqMask (df : List Row) (label : String) :
    boolIndex df (seriesEqMask df label) =
      df.filter (fun r => decide (r.strategy = label)) := by
  induction df with
  | nil => rfl
  | cons r rest ih =>
    by_cases h : r.strategy = label
    · simp [boolIndex, seriesEqMask, List.filter_cons, h] at ih ⊢
      exact ih
    · have hb : (r.strategy == label) = false := by
        exact beq_eq_false_iff_ne.mpr h
      simp [boolIndex, seriesEqMask, List.filter_cons, hb, h] at ih ⊢
      exact ih

/-- The sample extracted for a label is the filtered column. -/
lemma sample_eq_specSample (df : List Row) (label : String) :
    colValues (boolIndex df (seriesEqMask df label)) = specSample df label := by
  rw [specSample, ← boolIndex_seriesEqMask]
  rfl

/-! ### Analysis of the Student t survival function -/

lemma studentWeight_base_pos {ν : ℝ} (hν : 0 < ν) (x : ℝ) :
    0 < 1 + x ^ 2 / ν :=
  add_pos_of_pos_of_nonneg one_pos (div_nonneg (sq_nonneg x) hν.le)

lemma studentWeight_pos {ν : ℝ} (hν : 0 < ν) (x : ℝ) :
    0 < studentWeight ν x :=
  Real.rpow_pos_of_pos (studentWeight_base_pos hν x) _

lemma continuous_studentWeight {ν : ℝ} (hν : 0 < ν) :
    Continuous (studentWeight ν) := by
  have hc : Continuous fun x : ℝ => 1 + x ^ 2 / ν := by continuity
  exact hc.rpow_const (fun x => Or.inl (studentWeight_base_pos hν x).ne')

/-- For `x ≥ 1` the unnormalized Student density is dominated by a constant
multiple of `x ^ (-(ν + 1))`. -/
lemma studentWeight_le_bound {ν : ℝ} (hν : 0 < ν) {x : ℝ} (hx : 1 < x) :
    studentWeight ν x ≤ ν ^ ((ν + 1) / 2) * x ^ (-(ν + 1)) := by
  have hx0 : 0 < x := lt_trans one_pos hx
  have hdiv : 0 < x ^ 2 / ν := div_pos (by positivity) hν
  have h1 : studentWeight ν x ≤ (x ^ 2 / ν) ^ (-((ν + 1) / 2)) := by
    refine Real.rpow_le_rpow_of_nonpos hdiv (by linarith) ?_
    have : (0 : ℝ) ≤ (ν + 1) / 2 := by positivity
    linarith
  refine h1.trans_eq ?_
  rw [Real.div_rpow (by positivity) hν.le]
  rw [show (x ^ 2 : ℝ) = x ^ ((2 : ℕ) : ℝ) from (Real.rpow_natCast x 2).symm]
  rw [← Real.rpow_mul hx0.le]
  rw [show ((2 : ℕ) : ℝ) * -((ν + 1) / 2) = -(ν + 1) by push_cast; ring]
  rw [Real.rpow_neg hν.le, div_inv_eq_mul, mul_comm]

lemma studentWeight_integrableOn_Ioi {ν : ℝ} (hν : 1 ≤ ν) :
    MeasureTheory.IntegrableOn (studentWeight ν) (Set.Ioi 0) := by
  have hν0 : 0 < ν := lt_of_lt_of_le one_pos hν
  have h01 : MeasureTheory.IntegrableOn (studentWeight ν) (Set.Ioc 0 1) :=
    (continuous_studentWeight hν0).integrableOn_Ioc
  have h1inf : MeasureTheory.IntegrableOn (studentWeight ν) (Set.Ioi 1) := by
    have hg : MeasureTheory.IntegrableOn
        (fun x : ℝ => ν ^ ((ν + 1) / 2) * x ^ (-(ν + 1))) (Set.Ioi 1) :=
      (integrableOn_Ioi_rpow_of_lt (by linarith) one_pos).const_mul _
    refine MeasureTheory.Integrable.mono' hg
      ((continuous_studentWeight hν0).aestronglyMeasurable.restrict) ?_
    filter_upwards [MeasureTheory.ae_restrict_mem measurableSet_Ioi] with x hx
    rw [Real.norm_eq_abs, abs_of_pos (studentWeight_pos hν0 x)]
    exact studentWeight_le_bound hν0 hx
  exact MeasureTheory.IntegrableOn.mono_set (h01.union h1inf)
    (by rw [Set.Ioc_union_Ioi_eq_Ioi zero_le_one])

lemma integral_Ioi_studentWeight_pos {ν : ℝ} (hν : 1 ≤ ν) :
    0 < ∫ x in Set.Ioi (0 : ℝ), studentWeight ν x := by
  have hν0 : 0 < ν := lt_of_lt_of_le one_pos hν
  rw [MeasureTheory.integral_pos_iff_support_of_nonneg
    (fun x => (studentWeight_pos hν0 x).le) (studentWeight_integrableOn_Ioi hν)]
  have hsupp : Function.support (studentWeight ν) = Set.univ :=
    Set.eq_univ_of_forall (fun x => (studentWeight_pos hν0 x).ne')
  rw [hsupp, MeasureTheory.Measure.restrict_apply_univ, Real.volume_Ioi]
  exact ENNReal.zero_lt_top

/-- The unnormalized Student density is even, so its total integral is twice
its upper-tail integral from 0. -/
lemma integral_studentWeight_eq_two_mul (ν : ℝ) :
    ∫ x, studentWeight ν x = 2 * ∫ x in Set.Ioi (0 : ℝ), studentWeight ν x := by
  have h : ∀ x : ℝ, studentWeight ν |x| = studentWeight ν x := by
    intro x
    simp [studentWeight, sq_abs]
  calc ∫ x, studentWeight ν x = ∫ x, studentWeight ν |x| := by simp_rw [h]
    _ = 2 * ∫ x in Set.Ioi (0 : ℝ), studentWeight ν x := integral_comp_abs

/-- At `t = 0`, by symmetry the Student survival function is exactly `1/2`. -/
lemma studentSF_zero {ν : ℝ} (hν : 1 ≤ ν) : studentSF ν 0 = 1 / 2 := by
  have hpos := integral_Ioi_studentWeight_pos hν
  rw [studentSF, integral_studentWeight_eq_two_mul]
  rw [div_eq_div_iff (by linarith) two_ne_zero]
  ring

/-! ### Cast lemmas: rational statistics against their real-valued spec -/

lemma ratCast_list_sum (l : List ℚ) :
    ((l.sum : ℚ) : ℝ) = (l.map (fun q : ℚ => (q : ℝ))).sum := by
  induction l with
  | nil => simp
  | cons x xs ih => simp [ih]

lemma meanQ_cast (l : List ℚ) : ((meanQ l : ℚ) : ℝ) = specMeanR l := by
  rw [meanQ, specMeanR, Rat.cast_div, ratCast_list_sum]
  norm_num

lemma sqDevSum_cast (l : List ℚ) :
    (((l.map (fun x => (x - meanQ l) ^ 2)).sum : ℚ) : ℝ) =
      (l.map (fun x : ℚ => ((x : ℝ) - specMeanR l) ^ 2)).sum := by
  rw [ratCast_list_sum, List.map_map]
  refine congrArg List.sum (List.map_congr_left ?_)
  intro x _
  simp only [Function.comp_apply]
  push_cast [meanQ_cast]
  ring

lemma popVarQ_cast (l : List ℚ) :
    ((popVarQ l : ℚ) : ℝ) =
      (l.map (fun x : ℚ => ((x : ℝ) - specMeanR l) ^ 2)).sum / l.length := by
  rw [popVarQ, Rat.cast_div, sqDevSum_cast]
  norm_num

/-- For a nonempty sample, `np.mean` is the spec's arithmetic mean. -/
lemma npMean_spec {l : List ℚ} (h : l ≠ []) :
    (npMean? l).map (fun q : ℚ => (q : ℝ)) = some (specMeanR l) := by
  rw [npMean?, if_neg h]
  simp [meanQ_cast]

/-- For a nonempty sample, `np.std` is the spec's population standard
deviation (divisor `n`). -/
lemma npStd_spec {l : List ℚ} (h : l ≠ []) :
    npStd? l = some (specPopStdR l) := by
  rw [npStd?, if_neg h, specPopStdR, ← popVarQ_cast]

/-! ### Permutation invariance of the sample statistics -/

lemma meanQ_perm {a b : List ℚ} (h : a.Perm b) : meanQ a = meanQ b := by
  rw [meanQ, meanQ, h.sum_eq, h.length_eq]

lemma sampleVarQ_perm {a b : List ℚ} (h : a.Perm b) :
    sampleVarQ a = sampleVarQ b := by
  rw [sampleVarQ, sampleVarQ, meanQ_perm h, h.length_eq,
    (h.map (fun x => (x - meanQ b) ^ 2)).sum_eq]

/-! ### The script's t-test call agrees with the textbook equal-variance
two-sided test -/

lemma ttest_ind_eq_spec (a b : List ℚ) :
    ttest_ind a b true = specTTestEqualVarTwoSided a b := by
  rw [ttest_ind, specTTestEqualVarTwoSided]
  by_cases hg : a.length < 2 ∨ b.length < 2
  · rw [if_pos hg, if_pos hg]
  · push_neg at hg
    obtain ⟨ha, hb⟩ := hg
    have ha1 : ((a.length : ℚ) - 1) ≠ 0 := by
      have : (2 : ℚ) ≤ (a.length : ℚ) := by exact_mod_cast ha
      intro hc
      nlinarith
    have hb1 : ((b.length : ℚ) - 1) ≠ 0 := by
      have : (2 : ℚ) ≤ (b.length : ℚ) := by exact_mod_cast hb
      intro hc
      nlinarith
    have hdf : ((a.length + b.length - 2 : ℕ) : ℚ) =
        (a.length : ℚ) + (b.length : ℚ) - 2 := by
      have : 2 ≤ a.length + b.length := le_trans ha (Nat.le_add_right _ _)
      push_cast [Nat.cast_sub this]
      ring
    have hng : ¬(a.length < 2 ∨ b.length < 2) := by
      push_neg
      exact ⟨ha, hb⟩
    rw [if_neg hng, if_neg hng]
    have hsv : ((a.length : ℚ) - 1) * sampleVarQ a = (a.map (fun x => (x - meanQ a) ^ 2)).sum := by
      rw [sampleVarQ, mul_div_cancel₀ _ ha1]
    have hsv2 : ((b.length : ℚ) - 1) * sampleVarQ b = (b.map (fun x => (x - meanQ b) ^ 2)).sum := by
      rw [sampleVarQ, mul_div_cancel₀ _ hb1]
    simp only [eq_self_iff_true, if_true, hsv, hsv2, hdf]

/-- For two samples with the same multiset of at least two values and nonzero
sample variance, the equal-variance t-test yields exactly `t = 0`, `p = 1`. -/
lemma ttest_ind_perm_eq {a b : List ℚ} (hab : a.Perm b) (h2 : 2 ≤ a.length)
    (hv : sampleVarQ a ≠ 0) :
    ttest_ind a b true = (FVal.val 0, FVal.val 1) := by
  have hlen : a.length = b.length := hab.length_eq
  have hb2 : 2 ≤ b.length := hlen ▸ h2
  have hng : ¬(a.length < 2 ∨ b.length < 2) := by
    push_neg
    exact ⟨h2, hb2⟩
  have hm : meanQ b = meanQ a := (meanQ_perm hab).symm
  have hvb : sampleVarQ b = sampleVarQ a := (sampleVarQ_perm hab).symm
  have hq2 : (2 : ℚ) ≤ (a.length : ℚ) := by exact_mod_cast h2
  have hqb2 : (2 : ℚ) ≤ (b.length : ℚ) := by exact_mod_cast hb2
  have hsum2 : 2 ≤ a.length + b.length := le_trans h2 (Nat.le_add_right _ _)
  have hdf : ((a.length + b.length - 2 : ℕ) : ℚ) =
      (a.length : ℚ) + (b.length : ℚ) - 2 := by
    push_cast [Nat.cast_sub hsum2]
    ring
  have hdfne : ((a.length : ℚ) + (b.length : ℚ) - 2) ≠ 0 := by
    intro hc
    nlinarith
  have hna : (a.length : ℚ) ≠ 0 := by
    intro hc
    nlinarith
  have hnb : (b.length : ℚ) ≠ 0 := by
    intro hc
    nlinarith
  have hsvar : (((a.length : ℚ) - 1) * sampleVarQ a +
      ((b.length : ℚ) - 1) * sampleVarQ a) / ((a.length + b.length - 2 : ℕ) : ℚ) =
      sampleVarQ a := by
    rw [hdf]
    field_simp
    ring
  have hfrac : (0 : ℚ) < 1 / (a.length : ℚ) + 1 / (b.length : ℚ) := by
    have h1 : (0 : ℚ) < (a.length : ℚ) := by nlinarith
    have h2q : (0 : ℚ) < (b.length : ℚ) := by nlinarith
    positivity
  have hdsq : sampleVarQ a * (1 / (a.length : ℚ) + 1 / (b.length : ℚ)) ≠ 0 :=
    mul_ne_zero hv hfrac.ne'
  have hν : (1 : ℝ) ≤ ((a.length + b.length - 2 : ℕ) : ℝ) := by
    have h22 : 1 ≤ a.length + b.length - 2 := by omega
    exact_mod_cast h22
  rw [ttest_ind, if_neg hng]
  simp only [eq_self_iff_true, if_true, hvb, hm, hsvar]
  rw [if_neg hdsq]
  have ht : ((meanQ a - meanQ a : ℚ) : ℝ) = 0 := by
    rw [sub_self, Rat.cast_zero]
  rw [ht, zero_div, abs_zero, studentSF_zero hν]
  norm_num

/-! ### Concrete evaluations of the format specifiers -/

lemma fmtFixed4_three_halves : fmtFixed4 (FVal.val (3 / 2)) = "1.5000" := by
  have hr : round (((3 : ℝ) / 2) * 10000) = (15000 : ℤ) := by
    have h : ((3 : ℝ) / 2) * 10000 = ((15000 : ℤ) : ℝ) := by norm_num
    rw [h, round_intCast]
  simp only [fmtFixed4, hr]
  rfl

lemma fmtSci4_inv800 : fmtSci4 (FVal.val (1 / 800)) = "1.2500e-03" := by
  have hx0 : ¬((1 : ℝ) / 800 = 0) := by norm_num
  have habs : |(1 : ℝ) / 800| = 1 / 800 := abs_of_pos (by norm_num)
  have he : ⌊Real.logb 10 ((1 : ℝ) / 800)⌋ = (-3 : ℤ) := by
    rw [Int.floor_eq_iff]
    constructor
    · rw [Real.le_logb_iff_rpow_le (by norm_num) (by norm_num), Real.rpow_intCast]
      norm_num
    · rw [show ((-3 : ℤ) : ℝ) + 1 = ((-2 : ℤ) : ℝ) by norm_num]
      rw [Real.logb_lt_iff_lt_rpow (by norm_num) (by norm_num), Real.rpow_intCast]
      norm_num
  have hm : round ((1 : ℝ) / 800 * (10 : ℝ) ^ ((4 : ℤ) - (-3 : ℤ))) = (12500 : ℤ) := by
    have h : (1 : ℝ) / 800 * (10 : ℝ) ^ ((4 : ℤ) - (-3 : ℤ)) = ((12500 : ℤ) : ℝ) := by
      norm_num
    rw [h, round_intCast]
  simp only [fmtSci4, if_neg hx0, habs, he, hm]
  norm_num
  rfl

/-! ### Missing labels and unknown labels -/

/-- If no row carries the label, the extracted sample is empty. -/
lemma sample_nil_of_absent {df : List Row} {label : String}
    (h : ∀ r ∈ df, r.strategy ≠ label) :
    colValues (boolIndex df (seriesEqMask df label)) = [] := by
  rw [sample_eq_specSample, specSample]
  have : df.filter (fun r => decide (r.strategy = label)) = [] := by
    rw [List.filter_eq_nil_iff]
    intro r hr
    simp [h r hr]
  rw [this]
  rfl

/-- A row with a label different from the one selected does not change the
extracted sample, wherever it sits in the table. -/
lemma sample_insert_other (pre post : List Row) (r : Row) (label : String)
    (h : r.strategy ≠ label) :
    colValues (boolIndex (pre ++ r :: post) (seriesEqMask (pre ++ r :: post) label)) =
      colValues (boolIndex (pre ++ post) (seriesEqMask (pre ++ post) label)) := by
  rw [sample_eq_specSample, sample_eq_specSample, specSample, specSample]
  rw [List.filter_append, List.filter_append, List.filter_cons]
  simp [h]

/-! ### The print loop -/

lemma foldl_printLine (l : List String) (st : ScriptState) :
    (l.foldl printLine st).table = st.table ∧
    (l.foldl printLine st).files = st.files ∧
    (l.foldl printLine st).console = st.console ++ l := by
  induction l generalizing st with
  | nil => simp
  | cons x xs ih =>
    obtain ⟨h1, h2, h3⟩ := ih (printLine st x)
    refine ⟨h1, h2, ?_⟩
    rw [List.foldl_cons, h3, printLine, List.append_assoc]
    rfl

/-! ### Claims -/

/-- Claim C1: for each of the three fixed labels "Random", "PDF",
"Hunt and Target", the sample produced by the partitioner equals the ordered
subsequence of `average_shots` values from exactly the rows whose strategy
column equals that label, in the rows' original order (in particular it is a
subsequence of the full column). -/
theorem claim_C1 (df : List Row) :
    (random_results df = specSample df "Random" ∧
      (random_results df).Sublist (df.map Row.average_shots)) ∧
    (pdf_results df = specSample df "PDF" ∧
      (pdf_results df).Sublist (df.map Row.average_shots)) ∧
    (hunt_target_results df = specSample df "Hunt and Target" ∧
      (hunt_target_results df).Sublist (df.map Row.average_shots)) := by
  have hs : ∀ label : String,
      (specSample df label).Sublist (df.map Row.average_shots) := by
    intro label
    exact (List.filter_sublist df).map Row.average_shots
  refine ⟨⟨sample_eq_specSample df "Random", ?_⟩,
    ⟨sample_eq_specSample df "PDF", ?_⟩,
    ⟨sample_eq_specSample df "Hunt and Target", ?_⟩⟩
  · rw [show random_results df = specSample df "Random" from
      sample_eq_specSample df "Random"]
    exact hs "Random"
  · rw [show pdf_results df = specSample df "PDF" from
      sample_eq_specSample df "PDF"]
    exact hs "PDF"
  · rw [show hunt_target_results df = specSample df "Hunt and Target" from
      sample_eq_specSample df "Hunt and Target"]
    exact hs "Hunt and Target"

/-- Claim C2: the bar chart's heights are the `np.mean` of the three samples
and its error bars the `np.std` of the three samples; for every non-empty
sample the height is the arithmetic mean and the error bar the population
standard deviation (divisor `n`); and on `[10, 12]` the error bar `1` differs
from the sample-corrected (divisor `n - 1`) standard deviation. -/
theorem claim_C2 (df : List Row) :
    (strategyComparisonChart df).heights =
      [npMean? (random_results df), npMean? (pdf_results df),
        npMean? (hunt_target_results df)] ∧
    (strategyComparisonChart df).yerr =
      [npStd? (random_results df), npStd? (pdf_results df),
        npStd? (hunt_target_results df)] ∧
    (∀ l : List ℚ, l ≠ [] →
      (npMean? l).map (fun q : ℚ => (q : ℝ)) = some (specMeanR l) ∧
      npStd? l = some (specPopStdR l)) ∧
    npStd? [10, 12] = some 1 ∧ specSampleStdR [10, 12] ≠ 1 := by
  refine ⟨rfl, rfl, fun l h => ⟨npMean_spec h, npStd_spec h⟩, ?_, ?_⟩
  · rw [npStd?, if_neg (by simp)]
    norm_num [popVarQ, meanQ]
  · have h2 : specSampleStdR [10, 12] = Real.sqrt 2 := by
      rw [specSampleStdR, specMeanR]
      norm_num
    rw [h2]
    intro hc
    have := Real.sqrt_eq_one.mp hc
    norm_num at this

/-- Claim C3: the statistical comparator runs scipy's independent two-sample
t-test (default `equal_var=True`, two-sided) on the three label pairs, each
call agreeing with the textbook equal-variance two-sided test on the two
corresponding samples, and the printed `(t, p)` values are exactly those
results. -/
theorem claim_C3 (df : List Row) :
    ttest_ind_default (random_results df) (pdf_results df) =
      specTTestEqualVarTwoSided (random_results df) (pdf_results df) ∧
    ttest_ind_default (random_results df) (hunt_target_results df) =
      specTTestEqualVarTwoSided (random_results df) (hunt_target_results df) ∧
    ttest_ind_default (pdf_results df) (hunt_target_results df) =
      specTTestEqualVarTwoSided (pdf_results df) (hunt_target_results df) ∧
    consoleOutput df = ["T-test results:",
      mkTestLine "Random" "PDF"
        (specTTestEqualVarTwoSided (random_results df) (pdf_results df)).1
        (specTTestEqualVarTwoSided (random_results df) (pdf_results df)).2,
      mkTestLine "Random" "Hunt and Target"
        (specTTestEqualVarTwoSided (random_results df) (hunt_target_results df)).1
        (specTTestEqualVarTwoSided (random_results df) (hunt_target_results df)).2,
      mkTestLine "PDF" "Hunt and Target"
        (specTTestEqualVarTwoSided (pdf_results df) (hunt_target_results df)).1
        (specTTestEqualVarTwoSided (pdf_results df) (hunt_target_results df)).2] := by
  have h := ttest_ind_eq_spec
  refine ⟨h _ _, h _ _, h _ _, ?_⟩
  rw [consoleOutput]
  simp only [ttest_ind_default, h]

/-- Claim C4: the console output is exactly four lines — a header then one
"A vs B: t=…, p=…" line per pair in the fixed order (Random, PDF),
(Random, Hunt and Target), (PDF, Hunt and Target) — with `t` rendered by the
fixed-point 4-decimal format and `p` by the scientific 4-digit format
(demonstrated concretely on `t = 3/2`, `p = 1/800`). -/
theorem claim_C4 (df : List Row) :
    (consoleOutput df).length = 4 ∧
    consoleOutput df = ["T-test results:",
      mkTestLine "Random" "PDF"
        (ttest_ind_default (random_results df) (pdf_results df)).1
        (ttest_ind_default (random_results df) (pdf_results df)).2,
      mkTestLine "Random" "Hunt and Target"
        (ttest_ind_default (random_results df) (hunt_target_results df)).1
        (ttest_ind_default (random_results df) (hunt_target_results df)).2,
      mkTestLine "PDF" "Hunt and Target"
        (ttest_ind_default (pdf_results df) (hunt_target_results df)).1
        (ttest_ind_default (pdf_results df) (hunt_target_results df)).2] ∧
    mkTestLine "Random" "PDF" (FVal.val (3 / 2)) (FVal.val (1 / 800)) =
      "Random vs PDF: t=1.5000, p=1.2500e-03" := by
  refine ⟨rfl, rfl, ?_⟩
  rw [mkTestLine, fmtFixed4_three_halves, fmtSci4_inv800]
  rfl

/-- Claim C5 (amended): for two samples with the same multiset of values, at
least two observations, and nonzero sample variance, the script's t-test call
yields exactly `t = 0` and `p = 1`.  (For identical constant samples the
pooled variance is zero and scipy yields NaN instead — see the
counterexample.) -/
theorem claim_C5 (a b : List ℚ) (hab : a.Perm b) (h2 : 2 ≤ a.length)
    (hv : sampleVarQ a ≠ 0) :
    ttest_ind_default a b = (FVal.val 0, FVal.val 1) := by
  rw [ttest_ind_default]
  exact ttest_ind_perm_eq hab h2 hv

/-- Claim C5 counterexample: the identical constant samples `[5, 5]` and
`[5, 5]` have zero variance, so the t-test result is `(NaN, NaN)` — not
`t ≈ 0, p ≈ 1` as the unrestricted claim states. -/
theorem claim_C5_counterexample :
    ttest_ind_default [5, 5] [5, 5] = (FVal.nan, FVal.nan) ∧
    FVal.nan ≠ FVal.val 0 := by
  constructor
  · rw [ttest_ind_default]
    norm_num [ttest_ind, sampleVarQ, meanQ]
  · intro hc
    exact FVal.noConfusion hc

/-- Claim C5 witness: the samples `[1, 2]` and `[2, 1]` are a permutation
pair with two observations and nonzero sample variance, and the t-test on
them yields exactly `(0, 1)`. -/
theorem claim_C5_witness :
    ([1, 2] : List ℚ).Perm [2, 1] ∧ 2 ≤ ([1, 2] : List ℚ).length ∧
    sampleVarQ [1, 2] ≠ 0 ∧
    ttest_ind_default [1, 2] [2, 1] = (FVal.val 0, FVal.val 1) :=
  ⟨List.Perm.swap 2 1 [], by decide, by norm_num [sampleVarQ, meanQ],
    claim_C5 [1, 2] [2, 1] (List.Perm.swap 2 1 [])
      (by decide) (by norm_num [sampleVarQ, meanQ])⟩

/-- Claim C6: if one of the three fixed labels appears in no row, the
partitioner still succeeds: the corresponding sample is empty, the downstream
mean and standard deviation are NaN (`none`), and the script completes its
run with no validation error. -/
theorem claim_C6 (df : List Row) :
    ((∀ r ∈ df, r.strategy ≠ "Random") →
      random_results df = [] ∧ npMean? (random_results df) = none ∧
        npStd? (random_results df) = none) ∧
    ((∀ r ∈ df, r.strategy ≠ "PDF") →
      pdf_results df = [] ∧ npMean? (pdf_results df) = none ∧
        npStd? (pdf_results df) = none) ∧
    ((∀ r ∈ df, r.strategy ≠ "Hunt and Target") →
      hunt_target_results df = [] ∧ npMean? (hunt_target_results df) = none ∧
        npStd? (hunt_target_results df) = none) ∧
    runScript (Except.ok df) (fun _ => none) =
      Except.ok (runAfterLoad ⟨df, fun _ => none, []⟩) := by
  have key : ∀ (sample : List ℚ), sample = [] →
      npMean? sample = none ∧ npStd? sample = none := by
    intro sample hnil
    rw [hnil]
    exact ⟨rfl, rfl⟩
  refine ⟨fun h => ?_, fun h => ?_, fun h => ?_, rfl⟩
  · have hnil : random_results df = [] := sample_nil_of_absent h
    exact ⟨hnil, (key _ hnil).1, (key _ hnil).2⟩
  · have hnil : pdf_results df = [] := sample_nil_of_absent h
    exact ⟨hnil, (key _ hnil).1, (key _ hnil).2⟩
  · have hnil : hunt_target_results df = [] := sample_nil_of_absent h
    exact ⟨hnil, (key _ hnil).1, (key _ hnil).2⟩

/-- Claim C6 witness: in the one-row table `[("Random", 10)]` the label "PDF"
is absent; the PDF sample is empty and its mean and standard deviation are
NaN. -/
theorem claim_C6_witness :
    (∀ r ∈ [Row.mk "Random" 10], r.strategy ≠ "PDF") ∧
    (pdf_results [Row.mk "Random" 10] = [] ∧
      npMean? (pdf_results [Row.mk "Random" 10]) = none ∧
      npStd? (pdf_results [Row.mk "Random" 10]) = none) :=
  ⟨by decide, (claim_C6 [Row.mk "Random" 10]).2.1 (by decide)⟩

/-- Claim C7 (amended): a failed load — missing file, malformed CSV, missing
expected column — propagates as an uncaught error and the run produces
nothing; but a loaded table always completes the whole script, even when an
empty sample makes the statistics NaN. -/
theorem claim_C7 (e : LoadError) (fs : String → Option Figure)
    (df : List Row) :
    runScript (Except.error e) fs = Except.error e ∧
    runScript (Except.ok df) fs = Except.ok (runAfterLoad ⟨df, fs, []⟩) :=
  ⟨rfl, rfl⟩

/-- Claim C7 counterexample: the table `[("Random", 10)]` has an empty PDF
sample, hence NaN statistics, yet the script run succeeds rather than
terminating with an error. -/
theorem claim_C7_counterexample :
    runScript (Except.ok [Row.mk "Random" 10]) (fun _ => none) =
      Except.ok (runAfterLoad ⟨[Row.mk "Random" 10], fun _ => none, []⟩) ∧
    npMean? (pdf_results [Row.mk "Random" 10]) = none := by
  constructor
  · rfl
  · have hnil : pdf_results [Row.mk "Random" 10] = [] := by decide
    rw [hnil]
    rfl

/-- Claim C8: the loaded table is never mutated after loading; the script's
only effects are overwriting the two fixed image files (derived from the
table) and appending the four console lines. -/
theorem claim_C8 (s : ScriptState) :
    (runAfterLoad s).table = s.table ∧
    (runAfterLoad s).files = (fun name =>
      if name = "strategy_distribution.png"
        then some (Figure.box (strategyDistributionChart s.table))
      else if name = "strategy_comparison.png"
        then some (Figure.bar (strategyComparisonChart s.table))
      else s.files name) ∧
    (runAfterLoad s).console = s.console ++ consoleOutput s.table := by
  obtain ⟨h1, h2, h3⟩ := foldl_printLine (consoleOutput s.table)
    (saveFig (saveFig s "strategy_comparison.png"
        (Figure.bar (strategyComparisonChart s.table)))
      "strategy_distribution.png"
      (Figure.box (strategyDistributionChart s.table)))
  exact ⟨h1, h2, h3⟩

/-- Claim C9: the console output is a function of the CSV bytes alone — two
runs on the same bytes, in arbitrary ambient worlds (clock, RNG seed,
environment), produce byte-for-byte identical console output. -/
theorem claim_C9 (parseCsv : String → List Row) (csvBytes : String)
    (w₁ w₂ : World) :
    runConsoleInWorld parseCsv csvBytes w₁ =
      runConsoleInWorld parseCsv csvBytes w₂ :=
  rfl

/-- Claim C10: a row whose strategy label is none of "Random", "PDF",
"Hunt and Target" has no effect on any output: inserting it anywhere in the
table leaves the three samples, the two charts and the console output
unchanged. -/
theorem claim_C10 (pre post : List Row) (r : Row)
    (h : r.strategy ∉ strategies) :
    random_results (pre ++ r :: post) = random_results (pre ++ post) ∧
    pdf_results (pre ++ r :: post) = pdf_results (pre ++ post) ∧
    hunt_target_results (pre ++ r :: post) = hunt_target_results (pre ++ post) ∧
    means (pre ++ r :: post) = means (pre ++ post) ∧
    stds (pre ++ r :: post) = stds (pre ++ post) ∧
    strategyComparisonChart (pre ++ r :: post) =
      strategyComparisonChart (pre ++ post) ∧
    strategyDistributionChart (pre ++ r :: post) =
      strategyDistributionChart (pre ++ post) ∧
    consoleOutput (pre ++ r :: post) = consoleOutput (pre ++ post) := by
  have hne : ∀ label ∈ strategies, r.strategy ≠ label := by
    intro label hl hc
    exact h (hc ▸ hl)
  have h1 : random_results (pre ++ r :: post) = random_results (pre ++ post) :=
    sample_insert_other pre post r "Random" (hne "Random" (by simp [strategies]))
  have h2 : pdf_results (pre ++ r :: post) = pdf_results (pre ++ post) :=
    sample_insert_other pre post r "PDF" (hne "PDF" (by simp [strategies]))
  have h3 : hunt_target_results (pre ++ r :: post) =
      hunt_target_results (pre ++ post) :=
    sample_insert_other pre post r "Hunt and Target"
      (hne "Hunt and Target" (by simp [strategies]))
  refine ⟨h1, h2, h3, ?_, ?_, ?_, ?_, ?_⟩
  · rw [means, means, h1, h2, h3]
  · rw [stds, stds, h1, h2, h3]
  · rw [strategyComparisonChart, strategyComparisonChart, means, means,
      stds, stds, h1, h2, h3]
  · rw [strategyDistributionChart, strategyDistributionChart, h1, h2, h3]
  · rw [consoleOutput, consoleOutput, h1, h2, h3]

/-- Claim C2 witness: the sample `[10, 12]` is non-empty; its `np.mean` is
the spec mean and its `np.std` the spec population standard deviation. -/
theorem claim_C2_witness :
    ([10, 12] : List ℚ) ≠ [] ∧
    ((npMean? [10, 12]).map (fun q : ℚ => (q : ℝ)) = some (specMeanR [10, 12]) ∧
      npStd? [10, 12] = some (specPopStdR [10, 12])) :=
  ⟨by decide, (claim_C2 []).2.2.1 [10, 12] (by decide)⟩

/-- Claim C10 witness: inserting the unknown-label row `("Bogus", 99)`
between a Random row and a PDF row changes none of the outputs. -/
theorem claim_C10_witness :
    (Row.mk "Bogus" 99).strategy ∉ strategies ∧
    consoleOutput ([Row.mk "Random" 10] ++ Row.mk "Bogus" 99 ::
        [Row.mk "PDF" 5]) =
      consoleOutput ([Row.mk "Random" 10] ++ [Row.mk "PDF" 5]) :=
  ⟨by decide,
    (claim_C10 [Row.mk "Random" 10] [Row.mk "PDF" 5] (Row.mk "Bogus" 99)
      (by decide)).2.2.2.2.2.2.2⟩

end Battleship
